import Mathlib

/-!
Verification development for the radar distance monitor
(src/radar_distance_monitor.py): the line decoder and sample routing of
`RadarDataCollector.collect_data`/`read_stdout`, the sidecar log writer
(`create_log_file` / `write_to_log`), and the liveness tracking, sliding /
frozen window-buffer retention and scrollback viewport of
`RealTimeGrapher.update_plot`.

Numeric values carried by the program (Python floats) are embedded exactly:
a parsed float literal is kept as an integer numerator over a power-of-ten
denominator, and `PyFloat.toRat` gives its rational value.  Every claim
below compares decoder outputs produced by the same parse, so exact decimal
arithmetic is faithful for them.
-/

/-- Value of a successful Python `float()` call: `finite num den` stands for
the exact rational `num / den` of a decimal literal (`den` a power of ten),
next to the special values `float()` accepts. -/
inductive PyFloat where
  | finite (num : Int) (den : Nat)
  | inf
  | ninf
  | nan
deriving DecidableEq, Repr

/-- Rational value of a parsed float; the non-finite values are mapped to 0,
and no claim below compares them by value. -/
def PyFloat.toRat : PyFloat → ℚ
  | PyFloat.finite n d => (n : ℚ) / (d : ℚ)
  | _ => 0

/-- Accumulating worker for whitespace splitting: `acc` holds the current
token's characters in reverse. -/
def splitWsAux : List Char → List Char → List String
  | [], acc => if acc = [] then [] else [String.mk acc.reverse]
  | c :: rest, acc =>
      if c.isWhitespace then
        if acc = [] then splitWsAux rest []
        else String.mk acc.reverse :: splitWsAux rest []
      else splitWsAux rest (c :: acc)

/-- Python `str.split()` with no separator: split on whitespace runs and drop
the empty pieces. -/
def pySplit (s : String) : List String :=
  splitWsAux s.toList []

/-- Consume a leading ASCII digit group, allowing single underscores between
digits as Python's `int()`/`float()` do; returns (value, digit count, rest). -/
def takeDigitsUAux : List Char → Nat → Nat → Nat × Nat × List Char
  | [], acc, cnt => (acc, cnt, [])
  | c :: rest, acc, cnt =>
      if c.isDigit then takeDigitsUAux rest (acc * 10 + (c.toNat - 48)) (cnt + 1)
      else if c = '_' then
        match rest with
        | c2 :: rest2 =>
            if c2.isDigit then takeDigitsUAux rest2 (acc * 10 + (c2.toNat - 48)) (cnt + 1)
            else (acc, cnt, c :: rest)
        | [] => (acc, cnt, c :: rest)
      else (acc, cnt, c :: rest)

/-- Entry point for digit-group consumption: the first character must be a
digit (an underscore may not lead). -/
def takeDigitsU (cs : List Char) : Nat × Nat × List Char :=
  match cs with
  | c :: rest => if c.isDigit then takeDigitsUAux rest (c.toNat - 48) 1 else (0, 0, cs)
  | [] => (0, 0, [])

/-- Parse an entire character list as one digit group (Python `int()` after
the optional sign): must be non-empty and fully consumed. -/
def parseDigitsU (cs : List Char) : Option Nat :=
  let r := takeDigitsU cs
  if r.2.2 = [] ∧ r.2.1 ≠ 0 then some r.1 else none

/-- Python `int(token)` on a whitespace-free token: optional sign, then a
digit group. `none` models a raised ValueError. -/
def pyInt (s : String) : Option Int :=
  match s.toList with
  | '+' :: rest => (parseDigitsU rest).map Int.ofNat
  | '-' :: rest => (parseDigitsU rest).map (fun n => -(n : Int))
  | cs => (parseDigitsU cs).map Int.ofNat

/-- Mantissa of a Python float literal: `digits [. digits]` or `. digits`,
returning the exact numerator/power-of-ten denominator and the rest. -/
def parseMantissa (cs : List Char) : Option ((Int × Nat) × List Char) :=
  let r := takeDigitsU cs
  match r.2.2 with
  | '.' :: rest2 =>
      let f := takeDigitsU rest2
      if r.2.1 = 0 ∧ f.2.1 = 0 then none
      else some (((r.1 * 10 ^ f.2.1 + f.1 : Int), 10 ^ f.2.1), f.2.2)
  | rest1 => if r.2.1 = 0 then none else some (((r.1 : Int), 1), rest1)

/-- Exponent of a Python float literal, after the e/E marker. -/
def parseExp (cs : List Char) : Option Int :=
  match cs with
  | '+' :: rest => (parseDigitsU rest).map Int.ofNat
  | '-' :: rest => (parseDigitsU rest).map (fun n => -(n : Int))
  | _ => (parseDigitsU cs).map Int.ofNat

/-- Scale a numerator/denominator pair by a signed power of ten, exactly. -/
def applyExp (m : Int × Nat) : Int → Int × Nat
  | Int.ofNat n => (m.1 * 10 ^ n, m.2)
  | Int.negSucc n => (m.1, m.2 * 10 ^ (n + 1))

/-- Numeric (non-inf/nan) Python float literal, after the optional sign. -/
def pyFloatNum (cs : List Char) : Option (Int × Nat) :=
  match parseMantissa cs with
  | none => none
  | some (m, rest) =>
    match rest with
    | [] => some m
    | 'e' :: rest2 => (parseExp rest2).map (applyExp m)
    | 'E' :: rest2 => (parseExp rest2).map (applyExp m)
    | _ => none

/-- Unsigned part of Python `float()`: inf/infinity/nan (case-insensitive) or
a decimal literal. -/
def pyFloatMag (cs : List Char) : Option PyFloat :=
  let l := cs.map Char.toLower
  if l = "inf".toList ∨ l = "infinity".toList then some PyFloat.inf
  else if l = "nan".toList then some PyFloat.nan
  else (pyFloatNum cs).map (fun m => PyFloat.finite m.1 m.2)

/-- Negation for the special-value-aware float type. -/
def PyFloat.negate : PyFloat → PyFloat
  | PyFloat.finite n d => PyFloat.finite (-n) d
  | PyFloat.inf => PyFloat.ninf
  | PyFloat.ninf => PyFloat.inf
  | PyFloat.nan => PyFloat.nan

/-- Python `float(token)` on a whitespace-free token. `none` models a raised
ValueError. -/
def pyFloat (s : String) : Option PyFloat :=
  match s.toList with
  | '+' :: rest => pyFloatMag rest
  | '-' :: rest => (pyFloatMag rest).map PyFloat.negate
  | cs => pyFloatMag cs

/-- The zero float forced by the decoder when presence is not detected. -/
def pyZero : PyFloat := PyFloat.finite 0 1

/-- The decoded sample built by `read_stdout` (radar_distance_monitor.py
lines 170-176): raw presence/distance from the first two tokens, processed
presence copied from raw, processed distance zeroed unless the presence flag
is exactly 1. -/
structure DecodedSample where
  rawPresence : Int
  rawDistance : PyFloat
  processedPresence : Int
  processedDistance : PyFloat
deriving DecidableEq, Repr

/-- Exceptions the `except (ValueError, IndexError)` clause of `read_stdout`
catches. -/
inductive PyError where
  | valueError
  | indexError
deriving DecidableEq

/-- Body of the `try` block of `read_stdout` (lines 167-176): split the line,
and when at least two tokens are present parse presence as int and distance
as float, either parse failure raising ValueError; with fewer than two tokens
nothing is parsed and no exception is raised. -/
def decodeBody (line : String) : Except PyError (Option DecodedSample) :=
  match pySplit line with
  | p0 :: p1 :: _ =>
    match pyInt p0 with
    | none => Except.error PyError.valueError
    | some rp =>
      match pyFloat p1 with
      | none => Except.error PyError.valueError
      | some rd =>
        Except.ok (some
          { rawPresence := rp
            rawDistance := rd
            processedPresence := rp
            processedDistance := if rp = 1 then rd else pyZero })
  | _ => Except.ok none

/-- The decoder as deployed: the `try` body with the `except` clause turning
any caught parse error into "no sample"; processing then continues with the
next line, so the decoder is total. -/
def decode (line : String) : Option DecodedSample :=
  match decodeBody line with
  | Except.ok r => r
  | Except.error _ => none

/-- Status-queue entry put for every decoded sample (read_stdout line 182):
processed presence and distance, delivered regardless of presence value. -/
def statusEntry (s : DecodedSample) : Int × PyFloat :=
  (s.processedPresence, s.processedDistance)

/-- Data-queue entry for plotting (read_stdout lines 184-190): queued only
when the processed presence flag is exactly 1, otherwise nothing is queued. -/
def dataEntry (s : DecodedSample) : Option PyFloat :=
  if s.processedPresence = 1 then some s.processedDistance else none

/-- All plotting-queue entries produced by a drained batch of samples. -/
def dataQueueEntries (ss : List DecodedSample) : List PyFloat :=
  ss.filterMap dataEntry

/-- The fixed allow-list of known benign diagnostic substrings
(read_stdout lines 194-200). -/
def knownInitMessages : List String :=
  ["using alternate antenna", "debugging on", "spi speed",
   "using sensitivity setting", "using range min", "using range max",
   "spi max speed", "get status chipid", "slice size",
   "assuming", "setup presence sensing", "get defaults",
   "create done", "chip id :"]

/-- Python `msg in line.lower()`: substring test against the lowercased
line (read_stdout lines 202-203). -/
def isBenignRejection (line : String) : Bool :=
  knownInitMessages.any
    (fun msg => decide (msg.toList <:+: line.toList.map Char.toLower))

/-- What the rejection path may emit for a line: nothing, a debug-level
record, or a warning-level record (the last never produced by the code,
present so claims about levels are statable). -/
inductive ReportAction where
  | noReport
  | debugLog (line : String)
  | warnLog (line : String)
deriving DecidableEq

/-- Rejection reporting of `read_stdout` (lines 192-207): a line whose try
body raised lands in the except clause, where benign lines are suppressed
and the rest are logged at debug level; a line that raised nothing (decoded,
or had fewer than two tokens) emits no rejection report at all. -/
def lineReport (line : String) : ReportAction :=
  match decodeBody line with
  | Except.ok _ => ReportAction.noReport
  | Except.error _ =>
      if isBenignRejection line then ReportAction.noReport
      else ReportAction.debugLog line

/-- Suffix of a character list after the first occurrence of `sep`, or none
when `sep` does not occur (models the tail parts of Python `str.split(sep)`). -/
def afterSep (sep : List Char) : List Char → Option (List Char)
  | [] => none
  | c :: rest =>
      if sep.isPrefixOf (c :: rest) then some (List.drop sep.length (c :: rest))
      else afterSep sep rest

/-- Portion of a character list before the next occurrence of `sep`
(Python's `split(sep)` would cut the part there). -/
def upToSep (sep : List Char) : List Char → List Char
  | [] => []
  | c :: rest => if sep.isPrefixOf (c :: rest) then [] else c :: upToSep sep rest

/-- The device-identity marker phrase (read_stdout lines 152-155). -/
def chipMarker : String := "chip id :"

/-- Device-identity scan of `read_stdout` (lines 151-165): when the
lowercased line contains the marker, split the original line on the marker
(case-sensitively), take the part after the first occurrence, split it on
whitespace and take the first two tokens as chip id and chip model. -/
def chipScan (line : String) : Option (String × String) :=
  if decide (chipMarker.toList <:+: line.toList.map Char.toLower) then
    match afterSep chipMarker.toList line.toList with
    | some suffix =>
        match splitWsAux (upToSep chipMarker.toList suffix) [] with
        | cid :: cmodel :: _ => some (cid, cmodel)
        | _ => none
    | none => none
  else none

/-- One CSV row of the sidecar log (write_to_log lines 98-103): processed
and raw presence/distance plus the original raw line. -/
structure LogRow where
  presence : Int
  distance : PyFloat
  rawPresence : Int
  rawDistance : PyFloat
  rawLine : String
deriving DecidableEq

/-- Row written for a decoded sample (the write_to_log call at line 179). -/
def mkLogRow (s : DecodedSample) (line : String) : LogRow :=
  { presence := s.processedPresence
    distance := s.processedDistance
    rawPresence := s.rawPresence
    rawDistance := s.rawDistance
    rawLine := line }

/-- Sidecar-relevant state of one RadarDataCollector: discovered chip
identity, the lazily created log file (its name standing for the handle)
and the rows persisted so far. -/
structure CollectorState where
  host : String
  enableFileLogging : Bool
  chipId : Option String
  chipModel : Option String
  logFilename : Option String
  logRows : List LogRow
deriving DecidableEq

/-- Collector state at construction (RadarDataCollector.__init__). -/
def initCollector (host : String) (efl : Bool) : CollectorState :=
  { host := host, enableFileLogging := efl, chipId := none, chipModel := none,
    logFilename := none, logRows := [] }

/-- Python `host.replace('.', '_')` (create_log_file line 57). -/
def cleanIp (host : String) : String :=
  String.mk (host.toList.map (fun c => if c = '.' then '_' else c))

/-- Python chip-model cleaning (create_log_file line 62). -/
def cleanChipModel (m : String) : String :=
  String.mk (m.toList.map (fun c => if c = '/' ∨ c = '\\' then '-' else c))

/-- Chip portion of the log filename (create_log_file lines 60-65): model
and first 8 chars of the id when both are known, else the fallback
"unknown_chip". -/
def chipInfoStr : Option String → Option String → String
  | some m, some i => cleanChipModel m ++ "_" ++ String.mk (i.toList.take 8)
  | _, _ => "unknown_chip"

/-- Sidecar log filename (create_log_file lines 67-69); `ts` stands for the
wall-clock timestamp string. -/
def createLogFilename (host : String) (model chid : Option String) (ts : String) : String :=
  "radar_data_" ++ cleanIp host ++ "_" ++ chipInfoStr model chid ++ "_" ++ ts ++ ".csv"

/-- create_log_file (lines 51-84, successful open): a no-op unless file
logging is enabled, otherwise records the newly opened file's name. -/
def createLogFile (st : CollectorState) (ts : String) : CollectorState :=
  if st.enableFileLogging then
    { st with logFilename := some (createLogFilename st.host st.chipModel st.chipId ts) }
  else st

/-- write_to_log (lines 86-106): persists the row only when the log file has
been created and logging is enabled; otherwise the row is dropped. -/
def writeToLog (st : CollectorState) (row : LogRow) : CollectorState :=
  if st.logFilename.isSome ∧ st.enableFileLogging then
    { st with logRows := st.logRows ++ [row] }
  else st

/-- Per-line behaviour of read_stdout towards the sidecar: the chip-identity
scan (which caches the identity and triggers create_log_file) runs first,
then the decode attempt, whose successful sample is handed to write_to_log. -/
def processLine (st : CollectorState) (line : String) (ts : String) : CollectorState :=
  let st1 :=
    match chipScan line with
    | some p => createLogFile { st with chipId := some p.1, chipModel := some p.2 } ts
    | none => st
  match decode line with
  | some s => writeToLog st1 (mkLogRow s line)
  | none => st1

/-- Fold of processLine over a stream of lines. -/
def processLines (st : CollectorState) : List String → String → CollectorState
  | [], _ => st
  | l :: ls, ts => processLines (processLine st l ts) ls ts

/-- The per-host disconnect timeout (RealTimeGrapher.__init__ line 261). -/
def connectionTimeout : ℚ := 10

/-- Liveness fields of one host's entry in RealTimeGrapher.data. -/
structure HostLiveness where
  connected : Bool
  lastDataTime : Option ℚ
deriving DecidableEq

/-- Initial liveness: not connected, no data seen (lines 259-260). -/
def initLiveness : HostLiveness :=
  { connected := false, lastDataTime := none }

/-- Liveness update of one update_plot tick (lines 321-356): any drained
status event sets connected and stamps last_data_time with the tick's
current time; with no event, a Connected host is marked disconnected once
the silence strictly exceeds the timeout; before first contact nothing
happens. -/
def livenessTick (h : HostLiveness) (dataReceived : Bool) (now : ℚ) : HostLiveness :=
  if dataReceived then { connected := true, lastDataTime := some now }
  else
    match h.lastDataTime with
    | none => h
    | some t => if now - t > connectionTimeout then { h with connected := false } else h

/-- The sliding time window length in seconds (__init__ line 247). -/
def timeWindow : ℚ := 120

/-- One plotted point: relative time and distance. -/
structure BufPoint where
  time : ℚ
  dist : ℚ
deriving DecidableEq

/-- The eviction loop of update_plot (lines 361-363): pop from the front
while the front point is older than the cutoff. -/
def evictOld : List BufPoint → ℚ → List BufPoint
  | [], _ => []
  | p :: rest, cutoff => if p.time < cutoff then evictOld rest cutoff else p :: rest

/-- One sliding-mode tick on a host's window buffer (lines 333-342 and
358-363): append the drained points, then evict points older than
current_relative_time - time_window. -/
def slidingTick (buf newPts : List BufPoint) (now : ℚ) : List BufPoint :=
  evictOld (buf ++ newPts) (now - timeWindow)

/-- One frozen-mode (scrollback) tick: points are appended and the eviction
block is skipped entirely (line 359 guard). -/
def frozenTick (buf newPts : List BufPoint) : List BufPoint :=
  buf ++ newPts

/-- Pairwise time-ordering of buffer points (arrival order equals time
order for a single source, spec section 3). -/
def timeOrdered (l : List BufPoint) : Prop :=
  List.Sorted (fun p q : BufPoint => p.time ≤ q.time) l

/-- States of a host's window buffer reachable in sliding mode: starting
empty, each tick appends points stamped no later than the tick's clock and
in time order, then evicts; the tick clock never goes backwards. -/
inductive SlidingReach : List BufPoint → ℚ → Prop where
  | init (now : ℚ) : SlidingReach [] now
  | tick (buf : List BufPoint) (now : ℚ) (newPts : List BufPoint) (now' : ℚ)
      (hreach : SlidingReach buf now) (hnow : now ≤ now')
      (hpts : ∀ p ∈ newPts, p.time ≤ now')
      (hsorted : timeOrdered (buf ++ newPts)) :
      SlidingReach (slidingTick buf newPts now') now'

/-- Scrollback viewport computation of update_plot (lines 370-378): the
requested window [zoom_start, zoom_start + zoom_duration], clamped when it
would extend past the newest relative time. -/
def scrollbackWindow (zoomStart zoomDuration nowRel : ℚ) : ℚ × ℚ :=
  let timeEnd := zoomStart + zoomDuration
  if timeEnd > nowRel then (max 0 (nowRel - zoomDuration), nowRel)
  else (zoomStart, timeEnd)

/-- Points of a buffer inside a closed time range (lines 392-395). -/
def visiblePoints (buf : List BufPoint) (timeStart timeEnd : ℚ) : List BufPoint :=
  buf.filter (fun p => decide (timeStart ≤ p.time ∧ p.time ≤ timeEnd))

/-- Distances fed to the y-axis auto-scaler in scrollback mode (lines
387-396): guarded on a nonempty buffer, then only the visible distances. -/
def scrollbackAllDistances (buf : List BufPoint) (timeStart timeEnd : ℚ) : List ℚ :=
  if buf = [] then [] else (visiblePoints buf timeStart timeEnd).map BufPoint.dist

/-- Y-axis bounds computation (lines 400-409): margined min/max of the
collected distances, or the default range when none are in view. -/
def yLimits (allDistances : List ℚ) : ℚ × ℚ :=
  match allDistances with
  | [] => (0, 2)
  | d :: ds =>
      let mn := ds.foldl min d
      let mx := ds.foldl max d
      let margin := max 0.05 ((mx - mn) * 0.1)
      (mn - margin, mx + margin)

/-- Y-axis bounds produced in scrollback mode for one host's buffer. -/
def scrollYLimits (buf : List BufPoint) (timeStart timeEnd : ℚ) : ℚ × ℚ :=
  yLimits (scrollbackAllDistances buf timeStart timeEnd)

/-- The sample decoded from "1 0.452". -/
def samplePresent : DecodedSample :=
  ⟨1, PyFloat.finite 452 1000, 1, PyFloat.finite 452 1000⟩

/-- The sample decoded from "2 0.452". -/
def sampleTwo : DecodedSample :=
  ⟨2, PyFloat.finite 452 1000, 2, pyZero⟩

/-- The sample decoded from "0 0.452". -/
def sampleZero : DecodedSample :=
  ⟨0, PyFloat.finite 452 1000, 0, pyZero⟩

/-- A concrete collector state with logging enabled and an open log file. -/
def stOpenLog : CollectorState :=
  ⟨"10.0.0.1", true, none, none, some "f.csv", []⟩

/-- A freshly constructed collector with file logging enabled and no log
file created yet. -/
def stOpenLogless : CollectorState := initCollector "10.0.0.1" true

example : decode "1 0.452" =
    some ⟨1, PyFloat.finite 452 1000, 1, PyFloat.finite 452 1000⟩ := by decide

example : decode "0 0.452" =
    some ⟨0, PyFloat.finite 452 1000, 0, pyZero⟩ := by decide

example : decode "garbage line" = none := by decide

example : decode "2 0.452" =
    some ⟨2, PyFloat.finite 452 1000, 2, pyZero⟩ := by decide

example : decode "-1 1.5e2" =
    some ⟨-1, PyFloat.finite 1500 10, -1, pyZero⟩ := by decide

example : decode "1 -inf" = some ⟨1, PyFloat.ninf, 1, PyFloat.ninf⟩ := by decide

example : decode "1" = none := by decide

example : decode "1 2.5 extra tokens" =
    some ⟨1, PyFloat.finite 25 10, 1, PyFloat.finite 25 10⟩ := by decide

example : isBenignRejection "SPI Speed: 50000000 Hz" = true := by decide

example : isBenignRejection "abc def" = false := by decide

example : lineReport "abc def" = ReportAction.debugLog "abc def" := by decide

example : lineReport "garbage" = ReportAction.noReport := by decide

example :
    chipScan "get status chipid 0  chip id : 00000303 BGT60TR13C/BGT60TR13D" =
      some ("00000303", "BGT60TR13C/BGT60TR13D") := by decide

example : chipScan "1 0.452" = none := by decide

example :
    createLogFilename "10.0.0.1" none none "x" =
      "radar_data_10_0_0_1_unknown_chip_x.csv" := by decide

/-- Inversion of a successful decode: the sample's processed fields are
determined by its raw fields exactly as lines 174-176 compute them. -/
theorem decode_some_inv (line : String) (s : DecodedSample)
    (h : decode line = some s) :
    s.processedPresence = s.rawPresence ∧
    s.processedDistance = (if s.rawPresence = 1 then s.rawDistance else pyZero) := by
  unfold decode decodeBody at h
  rcases hs : pySplit line with _ | ⟨p0, _ | ⟨p1, rest⟩⟩
  · rw [hs] at h
    simp at h
  · rw [hs] at h
    simp at h
  · rcases hi : pyInt p0 with _ | rp
    · rw [hs] at h
      simp [hi] at h
    · rcases hf : pyFloat p1 with _ | rd
      · rw [hs] at h
        simp [hi, hf] at h
      · rw [hs] at h
        simp [hi, hf] at h
        subst h
        simp

/-- C1: for every successfully decoded line, the processed distance equals
the raw distance when the presence flag is 1 (true) and is forced to 0.0
when the presence flag is 0 (false), regardless of the raw distance value;
in particular decode "1 0.452" gives processed 0.452 and decode "0 0.452"
gives processed 0.0. -/
theorem decoder_zeroing_invariant (line : String) (s : DecodedSample)
    (h : decode line = some s) :
    ((s.rawPresence = 1 → s.processedDistance = s.rawDistance) ∧
      (s.rawPresence = 0 → s.processedDistance = pyZero)) ∧
    decode "1 0.452" = some samplePresent ∧
    decode "0 0.452" = some ⟨0, PyFloat.finite 452 1000, 0, pyZero⟩ := by
  refine ⟨?_, by decide, by decide⟩
  obtain ⟨-, h2⟩ := decode_some_inv line s h
  constructor
  · intro h1
    rw [h2, if_pos h1]
  · intro h0
    rw [h2, if_neg (by rw [h0]; decide)]

/-- C1 witness: the general clause instantiated at the decodable line
"1 0.452". -/
theorem decoder_zeroing_invariant_witness :
    ((samplePresent.rawPresence = 1 →
        samplePresent.processedDistance = samplePresent.rawDistance) ∧
      (samplePresent.rawPresence = 0 →
        samplePresent.processedDistance = pyZero)) ∧
    decode "1 0.452" = some samplePresent ∧
    decode "0 0.452" = some ⟨0, PyFloat.finite 452 1000, 0, pyZero⟩ :=
  decoder_zeroing_invariant "1 0.452" samplePresent (by decide)

/-- C3 counterexample: the line "2 0.452" has a non-zero integer presence
token, yet the decoder does not treat it as 1: the processed distance is
0.0 rather than 0.452, and the sample is not queued for plotting. -/
theorem nonzero_presence_counterexample :
    decode "2 0.452" = some sampleTwo ∧
    sampleTwo.processedDistance ≠ sampleTwo.rawDistance ∧
    PyFloat.toRat sampleTwo.processedDistance ≠
      PyFloat.toRat sampleTwo.rawDistance ∧
    dataEntry sampleTwo = none := by
  refine ⟨by decide, by decide, ?_, by decide⟩
  norm_num [PyFloat.toRat, sampleTwo, pyZero]

/-- C3 amended: only a presence token equal to exactly 1 keeps the decoded
distance and enters the plotted series; every other integer presence value
(0, 2, -1, ...) yields processed distance 0.0 and no plotted point. -/
theorem nonzero_presence_amended (line : String) (s : DecodedSample)
    (h : decode line = some s) :
    (s.rawPresence = 1 →
      s.processedDistance = s.rawDistance ∧ dataEntry s = some s.rawDistance) ∧
    (s.rawPresence ≠ 1 →
      s.processedDistance = pyZero ∧ dataEntry s = none) := by
  obtain ⟨h1, h2⟩ := decode_some_inv line s h
  constructor
  · intro hp
    have hd : s.processedDistance = s.rawDistance := by rw [h2, if_pos hp]
    exact ⟨hd, by rw [dataEntry, if_pos (h1.trans hp), hd]⟩
  · intro hp
    refine ⟨by rw [h2, if_neg hp], ?_⟩
    rw [dataEntry, if_neg (by rw [h1]; exact hp)]

/-- C3 amended witness: instantiated at the decodable line "2 0.452". -/
theorem nonzero_presence_amended_witness :
    (sampleTwo.rawPresence = 1 →
      sampleTwo.processedDistance = sampleTwo.rawDistance ∧
        dataEntry sampleTwo = some sampleTwo.rawDistance) ∧
    (sampleTwo.rawPresence ≠ 1 →
      sampleTwo.processedDistance = pyZero ∧ dataEntry sampleTwo = none) :=
  nonzero_presence_amended "2 0.452" sampleTwo (by decide)

/-- C4: a line yields a decoded sample exactly when it splits into at least
two whitespace tokens whose first parses as an integer and whose second
parses as a float; in every other case no sample is produced (the decoder,
a total function, continues with the next line), e.g. on "garbage line". -/
theorem decoder_rejection_iff (line : String) :
    ((decode line).isSome = true ↔
      2 ≤ (pySplit line).length ∧
        (pyInt ((pySplit line).getD 0 "")).isSome = true ∧
        (pyFloat ((pySplit line).getD 1 "")).isSome = true) ∧
    decode "garbage line" = none := by
  refine ⟨?_, by decide⟩
  unfold decode decodeBody
  rcases hs : pySplit line with _ | ⟨p0, _ | ⟨p1, rest⟩⟩
  · simp
  · simp
  · rcases hi : pyInt p0 with _ | rp
    · simp [hi]
    · rcases hf : pyFloat p1 with _ | rd
      · simp [hi, hf]
      · simp [hi, hf]

/-- C2: a decoded sample with presence flag 0 produces no plotting-queue
entry but still produces its status entry; every plotting-queue entry
originates from a sample whose presence flag is 1; and a decoded sample —
presence 0 included — is written to an open sidecar log. -/
theorem presence_false_not_plotted (ss : List DecodedSample) (s : DecodedSample)
    (p : PyFloat) (st : CollectorState) (line ts : String) :
    (s.processedPresence = 0 →
      dataEntry s = none ∧ statusEntry s = (0, s.processedDistance)) ∧
    (p ∈ dataQueueEntries ss →
      ∃ s' ∈ ss, s'.processedPresence = 1 ∧ s'.processedDistance = p) ∧
    (decode line = some s → st.enableFileLogging = true →
      st.logFilename.isSome = true →
      (processLine st line ts).logRows = st.logRows ++ [mkLogRow s line]) := by
  refine ⟨?_, ?_, ?_⟩
  · intro h0
    constructor
    · rw [dataEntry, if_neg (by rw [h0]; decide)]
    · rw [statusEntry, h0]
  · intro hp
    rw [dataQueueEntries] at hp
    rcases List.mem_filterMap.mp hp with ⟨s', hs', hd⟩
    refine ⟨s', hs', ?_, ?_⟩
    · by_contra hne
      rw [dataEntry, if_neg hne] at hd
      exact Option.noConfusion hd
    · by_cases h1 : s'.processedPresence = 1
      · rw [dataEntry, if_pos h1] at hd
        exact Option.some.inj hd
      · rw [dataEntry, if_neg h1] at hd
        exact absurd hd (by simp)
  · intro hd he hl
    rcases hc : chipScan line with _ | pr
    · simp [processLine, hc, hd, writeToLog, he, hl]
    · simp [processLine, hc, hd, writeToLog, createLogFile, he]

/-- C2 witness: instantiated at the presence-0 sample of "0 0.452", a
one-sample batch from "1 0.452", and an open-log collector state. -/
theorem presence_false_not_plotted_witness :
    (dataEntry sampleZero = none ∧
      statusEntry sampleZero = (0, sampleZero.processedDistance)) ∧
    (∃ s' ∈ [samplePresent], s'.processedPresence = 1 ∧
      s'.processedDistance = PyFloat.finite 452 1000) ∧
    (processLine stOpenLog "0 0.452" "ts").logRows =
      stOpenLog.logRows ++ [mkLogRow sampleZero "0 0.452"] :=
  have h := presence_false_not_plotted [samplePresent] sampleZero
    (PyFloat.finite 452 1000) stOpenLog "0 0.452" "ts"
  ⟨h.1 (by decide), h.2.1 (by decide), h.2.2 (by decide) (by decide) (by decide)⟩

/-- A line with fewer than two whitespace tokens never reaches the except
clause: the try body just falls through (read_stdout line 169 guard). -/
theorem decodeBody_ok_none (line : String)
    (h : decodeBody line = Except.ok none) : (pySplit line).length < 2 := by
  unfold decodeBody at h
  rcases hs : pySplit line with _ | ⟨p0, _ | ⟨p1, rest⟩⟩
  · simp
  · simp
  · rw [hs] at h
    exfalso
    rcases hi : pyInt p0 with _ | rp
    · simp [hi] at h
    · rcases hf : pyFloat p1 with _ | rd
      · simp [hi, hf] at h
      · simp [hi, hf] at h

/-- A raised parse error implies the line had at least two tokens. -/
theorem decodeBody_error_len (line : String) (e : PyError)
    (h : decodeBody line = Except.error e) : 2 ≤ (pySplit line).length := by
  unfold decodeBody at h
  rcases hs : pySplit line with _ | ⟨p0, _ | ⟨p1, rest⟩⟩
  · rw [hs] at h
    exact absurd h (by simp)
  · rw [hs] at h
    exact absurd h (by simp)
  · simp

/-- C8 counterexample: the rejected line "abc def" matches no benign
substring, yet it is reported at debug level rather than warning level; and
the rejected single-token line "garbage" is not reported at all. -/
theorem rejection_warning_counterexample :
    decode "abc def" = none ∧ isBenignRejection "abc def" = false ∧
    lineReport "abc def" = ReportAction.debugLog "abc def" ∧
    lineReport "abc def" ≠ ReportAction.warnLog "abc def" ∧
    decode "garbage" = none ∧
    lineReport "garbage" = ReportAction.noReport := by
  decide

/-- C8 amended: of the rejected lines, only those with at least two tokens
(i.e. an actual parse failure) are reported, benign allow-list matches are
suppressed, and the report is at debug level with the offending line;
rejected lines with fewer than two tokens produce no report, and no line is
ever reported at warning level. -/
theorem rejection_reporting_amended (line : String) (h : decode line = none) :
    ((pySplit line).length < 2 → lineReport line = ReportAction.noReport) ∧
    (2 ≤ (pySplit line).length →
      (isBenignRejection line = true → lineReport line = ReportAction.noReport) ∧
      (isBenignRejection line = false →
        lineReport line = ReportAction.debugLog line)) ∧
    lineReport line ≠ ReportAction.warnLog line := by
  unfold decode at h
  rcases hb : decodeBody line with e | r
  · refine ⟨fun hlen => ?_, fun _ => ⟨fun hben => ?_, fun hben => ?_⟩, ?_⟩
    · exact absurd (decodeBody_error_len line e hb) (by omega)
    · simp [lineReport, hb, hben]
    · simp [lineReport, hb, hben]
    · by_cases hben : isBenignRejection line <;> simp [lineReport, hb, hben]
  · rw [hb] at h
    change r = none at h
    subst h
    refine ⟨fun _ => ?_, fun hlen => ?_, ?_⟩
    · simp [lineReport, hb]
    · exact absurd (decodeBody_ok_none line hb) (by omega)
    · simp [lineReport, hb]

/-- C8 amended witness: instantiated at the rejected non-benign line
"abc def". -/
theorem rejection_reporting_amended_witness :
    lineReport "abc def" = ReportAction.debugLog "abc def" ∧
    lineReport "abc def" ≠ ReportAction.warnLog "abc def" :=
  ⟨((rejection_reporting_amended "abc def" (by decide)).2.1
      (by decide)).2 (by decide),
    (rejection_reporting_amended "abc def" (by decide)).2.2⟩

/-- With no log file yet and chip-free lines, processing a whole stream
never creates the sidecar file (create_log_file is only ever invoked from
the chip-identity branch at line 163). -/
theorem processLines_no_chip (lines : List String) (st : CollectorState)
    (ts : String) (hfile : st.logFilename = none)
    (hchip : ∀ l ∈ lines, chipScan l = none) :
    (processLines st lines ts).logFilename = none := by
  induction lines generalizing st with
  | nil => simpa [processLines] using hfile
  | cons l ls ih =>
      rw [processLines]
      refine ih (processLine st l ts) ?_ (fun l' hl' => hchip l' (by simp [hl']))
      have hc := hchip l (by simp)
      rcases hd : decode l with _ | s <;>
        simp [processLine, hc, hd, writeToLog, hfile]

/-- C9 counterexample: with file logging enabled, a run whose stream holds
decodable data rows but no device-identity line ends with no sidecar file
created at all and its rows dropped — no host-derived fallback file
appears. -/
theorem sidecar_fallback_counterexample :
    (processLines (initCollector "10.0.0.1" true)
        ["1 0.452", "0 0.300"] "ts").logFilename = none ∧
    (decode "1 0.452").isSome = true ∧
    (processLines (initCollector "10.0.0.1" true)
        ["1 0.452", "0 0.300"] "ts").logRows = [] := by
  decide

/-- C9 amended: sidecar creation is lazy and triggered only by
device-identity discovery; rows decoded before creation are dropped, not
buffered; a run that never sees an identity line ends with no sidecar file
(the "unknown_chip" host-derived naming fallback inside create_log_file is
never reached from the ingest path); when an identity line does arrive with
logging enabled, the file is created and named from the host and the
discovered identity. -/
theorem sidecar_lazy_creation_amended (st : CollectorState)
    (lineA lineB ts host : String) (cid cm : String) (lines : List String) :
    (st.logFilename = none → chipScan lineA = none →
      (processLine st lineA ts).logRows = st.logRows ∧
      (processLine st lineA ts).logFilename = none) ∧
    (st.enableFileLogging = true → chipScan lineB = some (cid, cm) →
      (processLine st lineB ts).logFilename =
        some (createLogFilename st.host (some cm) (some cid) ts)) ∧
    ((∀ l ∈ lines, chipScan l = none) →
      (processLines (initCollector host true) lines ts).logFilename = none) ∧
    chipInfoStr none none = "unknown_chip" := by
  refine ⟨fun hfile hc => ?_, fun he hc => ?_, fun hchip => ?_, rfl⟩
  · rcases hd : decode lineA with _ | s <;>
      simp [processLine, hc, hd, writeToLog, hfile]
  · rcases hd : decode lineB with _ | s <;>
      simp [processLine, hc, hd, writeToLog, createLogFile, he]
  · exact processLines_no_chip lines (initCollector host true) ts rfl hchip

/-- C9 amended witness: instantiated with a data line, a concrete
device-identity line and a one-line identity-free stream. -/
theorem sidecar_lazy_creation_amended_witness :
    ((processLine stOpenLogless "1 0.452" "ts").logRows = stOpenLogless.logRows ∧
      (processLine stOpenLogless "1 0.452" "ts").logFilename = none) ∧
    (processLine stOpenLogless
        "get status chipid 0  chip id : 00000303 BGT60TR13C/BGT60TR13D" "ts").logFilename =
      some (createLogFilename stOpenLogless.host
        (some "BGT60TR13C/BGT60TR13D") (some "00000303") "ts") ∧
    (processLines (initCollector "10.0.0.1" true) ["1 0.452"] "ts").logFilename = none ∧
    chipInfoStr none none = "unknown_chip" :=
  have h := sidecar_lazy_creation_amended stOpenLogless "1 0.452"
    "get status chipid 0  chip id : 00000303 BGT60TR13C/BGT60TR13D" "ts"
    "10.0.0.1" "00000303" "BGT60TR13C/BGT60TR13D" ["1 0.452"]
  ⟨h.1 rfl (by decide), h.2.1 rfl (by decide), h.2.2.1 (by decide), h.2.2.2⟩

/-- C5: an arriving event sets the state to Connected and stamps
last_event_time with the tick's now; on an event-free tick a Connected
source becomes Disconnected exactly when the silence strictly exceeds the
10-second timeout; and on the concrete trace with events at t=0 and t=5
followed by silence, the source is Connected at the t=5 and t=14 checks and
Disconnected at the t=16 check. -/
theorem liveness_timeout_behaviour (h : HostLiveness) (t now : ℚ)
    (hc : h.connected = true) (hl : h.lastDataTime = some t) :
    ((livenessTick h false now).connected = false ↔
      now - t > connectionTimeout) ∧
    livenessTick h true now = { connected := true, lastDataTime := some now } ∧
    ((livenessTick (livenessTick initLiveness true 0) true 5).connected = true ∧
      (livenessTick (livenessTick (livenessTick initLiveness true 0) true 5)
          false 14).connected = true ∧
      (livenessTick (livenessTick (livenessTick (livenessTick initLiveness
          true 0) true 5) false 14) false 16).connected = false) := by
  refine ⟨?_, rfl, ?_⟩
  · rw [livenessTick, if_neg (by simp), hl]
    by_cases hcond : now - t > connectionTimeout
    · simp [hcond]
    · simp [hcond, hc]
  · refine ⟨rfl, ?_, ?_⟩
    · norm_num [livenessTick, initLiveness, connectionTimeout]
    · norm_num [livenessTick, initLiveness, connectionTimeout]

/-- C5 witness: the general clauses instantiated at the Connected state
with last event at t=5 and an event-free check at t=16. -/
theorem liveness_timeout_behaviour_witness :
    ((livenessTick ⟨true, some 5⟩ false 16).connected = false ↔
      (16 : ℚ) - 5 > connectionTimeout) ∧
    livenessTick ⟨true, some 5⟩ true 16 =
      { connected := true, lastDataTime := some 16 } ∧
    ((livenessTick (livenessTick initLiveness true 0) true 5).connected = true ∧
      (livenessTick (livenessTick (livenessTick initLiveness true 0) true 5)
          false 14).connected = true ∧
      (livenessTick (livenessTick (livenessTick (livenessTick initLiveness
          true 0) true 5) false 14) false 16).connected = false) :=
  liveness_timeout_behaviour ⟨true, some 5⟩ 5 16 rfl rfl

/-- Points surviving eviction were in the buffer before. -/
theorem evictOld_subset (l : List BufPoint) (c : ℚ) :
    ∀ p ∈ evictOld l c, p ∈ l := by
  induction l with
  | nil => simp [evictOld]
  | cons q rest ih =>
      intro p hp
      rw [evictOld] at hp
      by_cases hq : q.time < c
      · rw [if_pos hq] at hp
        exact List.mem_cons_of_mem q (ih p hp)
      · rw [if_neg hq] at hp
        exact hp

/-- On a time-ordered buffer, the front-popping loop leaves only points at
or past the cutoff. -/
theorem evictOld_lower (l : List BufPoint) (c : ℚ) (hs : timeOrdered l) :
    ∀ p ∈ evictOld l c, c ≤ p.time := by
  induction l with
  | nil => simp [evictOld]
  | cons q rest ih =>
      intro p hp
      rw [evictOld] at hp
      rw [timeOrdered, List.sorted_cons] at hs
      by_cases hq : q.time < c
      · rw [if_pos hq] at hp
        exact ih hs.2 p hp
      · rw [if_neg hq] at hp
        rcases List.mem_cons.mp hp with rfl | hmem
        · exact not_lt.mp hq
        · exact le_trans (not_lt.mp hq) (hs.1 p hmem)

/-- On a time-ordered buffer in which every point is older than the cutoff,
the front-popping loop empties the buffer. -/
theorem evictOld_all_old (l : List BufPoint) (c : ℚ)
    (hall : ∀ p ∈ l, p.time < c) : evictOld l c = [] := by
  induction l with
  | nil => rfl
  | cons q rest ih =>
      rw [evictOld, if_pos (hall q (by simp))]
      exact ih (fun p hp => hall p (by simp [hp]))

/-- Every point of a buffer reachable in sliding mode lies within the last
time_window seconds of that state's tick clock. -/
theorem slidingReach_bounds (buf : List BufPoint) (now : ℚ)
    (h : SlidingReach buf now) :
    ∀ p ∈ buf, now - timeWindow ≤ p.time ∧ p.time ≤ now := by
  induction h with
  | init _ => simp
  | tick buf now newPts nxt hreach hnow hpts hsorted ih =>
      intro p hp
      rw [slidingTick] at hp
      refine ⟨evictOld_lower _ _ hsorted p hp, ?_⟩
      rcases List.mem_append.mp (evictOld_subset _ _ p hp) with hb | hn
      · exact le_trans (ih p hb).2 hnow
      · exact hpts p hn

/-- C6: in sliding mode with the 120-second window, after every
append-and-evict tick of any monotone run, any two retained points are at
most time_window apart; in particular no retained point is more than
time_window older than the newest retained point. -/
theorem sliding_window_retention (buf : List BufPoint) (now : ℚ)
    (h : SlidingReach buf now) (p q : BufPoint)
    (hp : p ∈ buf) (hq : q ∈ buf) :
    p.time - q.time ≤ timeWindow := by
  have h1 := slidingReach_bounds buf now h p hp
  have h2 := slidingReach_bounds buf now h q hq
  linarith [h1.1, h1.2, h2.1, h2.2]

/-- C6 witness: a concrete two-point tick at clock 10. -/
theorem sliding_window_retention_witness :
    (⟨3, 1⟩ : BufPoint).time - (⟨9, 2⟩ : BufPoint).time ≤ timeWindow :=
  sliding_window_retention (slidingTick [] [⟨3, 1⟩, ⟨9, 2⟩] 10) 10
    (SlidingReach.tick [] 0 [⟨3, 1⟩, ⟨9, 2⟩] 10 (SlidingReach.init 0)
      (by norm_num)
      (by intro p hp; fin_cases hp <;> norm_num)
      (by norm_num [timeOrdered, List.sorted_cons]))
    ⟨3, 1⟩ ⟨9, 2⟩
    (by norm_num [slidingTick, evictOld, timeWindow])
    (by norm_num [slidingTick, evictOld, timeWindow])

/-- C10: sliding-mode eviction is measured against the tick's wall clock:
after a tick every retained point is no older than now - 120; and when all
points (the source having stopped emitting) are older than now - 120 the
buffer empties entirely. -/
theorem sliding_eviction_wallclock (buf newPts : List BufPoint) (now : ℚ)
    (hsorted : timeOrdered (buf ++ newPts)) :
    (∀ p ∈ slidingTick buf newPts now, now - timeWindow ≤ p.time) ∧
    ((∀ p ∈ buf ++ newPts, p.time < now - timeWindow) →
      slidingTick buf newPts now = []) := by
  constructor
  · intro p hp
    rw [slidingTick] at hp
    exact evictOld_lower _ _ hsorted p hp
  · intro hall
    rw [slidingTick]
    exact evictOld_all_old _ _ hall

/-- C10 witness: a stale single-point buffer is fully evicted at clock 200,
and a fresh point at clock 200 is retained above the cutoff. -/
theorem sliding_eviction_wallclock_witness :
    slidingTick [⟨1, 1⟩] [] 200 = [] ∧
    (∀ p ∈ slidingTick [⟨150, 1⟩] [] 200, (200 : ℚ) - timeWindow ≤ p.time) :=
  ⟨(sliding_eviction_wallclock [⟨1, 1⟩] [] 200
      (by norm_num [timeOrdered])).2
      (by intro p hp; fin_cases hp; norm_num [timeWindow]),
    (sliding_eviction_wallclock [⟨150, 1⟩] [] 200
      (by norm_num [timeOrdered])).1⟩

/-- The distances fed to the auto-scaler are exactly the distances of the
visible points: the nonempty-buffer guard of line 389 is immaterial. -/
theorem scrollbackAllDistances_eq (buf : List BufPoint) (ts te : ℚ) :
    scrollbackAllDistances buf ts te =
      (visiblePoints buf ts te).map BufPoint.dist := by
  by_cases hb : buf = []
  · subst hb
    simp [scrollbackAllDistances, visiblePoints]
  · rw [scrollbackAllDistances, if_neg hb]

/-- C7 counterexample: with a frozen buffer holding a point at t=255 and the
viewport start 265 / duration 150 at relative time 400, the clamped window
is [250, 400], so the snapshot contains the point at t=255, which lies
outside the claimed range [265, 415]: the snapshot is not the
[start, start+duration] subset. -/
theorem frozen_snapshot_counterexample :
    visiblePoints [⟨255, 1⟩, ⟨300, 2⟩]
        (scrollbackWindow 265 150 400).1 (scrollbackWindow 265 150 400).2 ≠
      List.filter
        (fun p => decide ((265 : ℚ) ≤ p.time ∧ p.time ≤ 265 + 150))
        [⟨255, 1⟩, ⟨300, 2⟩] ∧
    (⟨255, 1⟩ : BufPoint) ∈ visiblePoints [⟨255, 1⟩, ⟨300, 2⟩]
        (scrollbackWindow 265 150 400).1 (scrollbackWindow 265 150 400).2 ∧
    ¬((265 : ℚ) ≤ (⟨255, 1⟩ : BufPoint).time ∧
      (⟨255, 1⟩ : BufPoint).time ≤ 265 + 150) := by
  have hw : scrollbackWindow 265 150 400 = (250, 400) := by
    norm_num [scrollbackWindow]
  rw [hw]
  refine ⟨?_, ?_, by norm_num⟩
  · norm_num [visiblePoints, List.filter]
  · norm_num [visiblePoints, List.filter]

/-- C7 amended: freezing the buffer stops eviction, so appending preserves
every previously retained point; the snapshot shown is exactly the subset of
points inside the effective window, which is [start, start + duration] when
that fits before the newest relative time and otherwise the clamped window
[max 0 (now - duration), now]; and the y-axis auto-scaling depends only on
the visible subrange. -/
theorem frozen_snapshot_amended (buf newPts buf2 : List BufPoint)
    (zs zd nowRel ts te : ℚ) (p : BufPoint) :
    (p ∈ buf → p ∈ frozenTick buf newPts) ∧
    (scrollbackWindow zs zd nowRel =
      if zs + zd ≤ nowRel then (zs, zs + zd)
      else (max 0 (nowRel - zd), nowRel)) ∧
    (p ∈ visiblePoints buf ts te ↔ p ∈ buf ∧ ts ≤ p.time ∧ p.time ≤ te) ∧
    (visiblePoints buf ts te = visiblePoints buf2 ts te →
      scrollYLimits buf ts te = scrollYLimits buf2 ts te) := by
  refine ⟨?_, ?_, ?_, ?_⟩
  · intro hp
    rw [frozenTick]
    exact List.mem_append_left _ hp
  · rw [scrollbackWindow]
    by_cases hcl : zs + zd > nowRel
    · rw [if_pos hcl, if_neg (by linarith)]
    · rw [if_neg hcl, if_pos (by linarith [not_lt.mp hcl])]
  · rw [visiblePoints]
    simp [List.mem_filter]
  · intro hv
    rw [scrollYLimits, scrollYLimits, scrollbackAllDistances_eq,
      scrollbackAllDistances_eq, hv]

/-- C7 amended witness: instantiated at a one-point frozen buffer, an
unclamped viewport, and equal buffers for the auto-scale clause. -/
theorem frozen_snapshot_amended_witness :
    (⟨5, 1⟩ : BufPoint) ∈ frozenTick [⟨5, 1⟩] [⟨6, 2⟩] ∧
    scrollbackWindow 0 10 20 =
      (if (0 : ℚ) + 10 ≤ 20 then ((0 : ℚ), (0 : ℚ) + 10)
        else (max 0 (20 - 10), 20)) ∧
    ((⟨5, 1⟩ : BufPoint) ∈ visiblePoints [⟨5, 1⟩] 0 10 ↔
      (⟨5, 1⟩ : BufPoint) ∈ [(⟨5, 1⟩ : BufPoint)] ∧
        (0 : ℚ) ≤ (⟨5, 1⟩ : BufPoint).time ∧
        (⟨5, 1⟩ : BufPoint).time ≤ 10) ∧
    scrollYLimits [⟨5, 1⟩] 0 10 = scrollYLimits [⟨5, 1⟩] 0 10 :=
  have h := frozen_snapshot_amended [⟨5, 1⟩] [⟨6, 2⟩] [⟨5, 1⟩] 0 10 20 0 10
    ⟨5, 1⟩
  ⟨h.1 (by simp), h.2.1, h.2.2.1, h.2.2.2 rfl⟩
